import Mathlib

/-!
Shallow embedding of the status-transition and side-effect engine of the
Paramata inventory system: the admin rental route handlers (PATCH / POST on
the rental collection, PATCH / DELETE on a rental by id) together with the
entity store they mutate (Item, Rental, RentalStatusLog, ActivityLog,
ItemHistory, Reminder, Notification), translated from the Prisma schema and
the Next.js route sources.  Store mutations are modelled as pure functions
on an explicit `Store` value; a Prisma `$transaction` is modelled by a
boolean failure flag: on failure the store is returned unchanged (rollback),
on success the whole transaction body is applied.
-/

namespace Paramata

/-- `RequestStatus` enum from the Prisma schema. -/
inductive RequestStatus where
  | PENDING
  | APPROVED
  | REJECTED
  | COMPLETED
  | CANCELLED
deriving DecidableEq, Repr

/-- `ItemStatus` enum from the Prisma schema. -/
inductive ItemStatus where
  | AVAILABLE
  | IN_CALIBRATION
  | RENTED
  | IN_MAINTENANCE
deriving DecidableEq, Repr

/-- `ActivityType` enum from the Prisma schema. -/
inductive ActivityType where
  | LOGIN
  | ITEM_CREATED
  | ITEM_UPDATED
  | ITEM_DELETED
  | CALIBRATION_CREATED
  | CALIBRATION_UPDATED
  | CALIBRATION_DELETED
  | MAINTENANCE_CREATED
  | MAINTENANCE_UPDATED
  | MAINTENANCE_DELETED
  | RENTAL_CREATED
  | RENTAL_UPDATED
  | RENTAL_DELETED
  | USER_CREATED
  | USER_UPDATED
  | USER_DELETED
  | CUSTOMER_CREATED
  | CUSTOMER_UPDATED
  | CUSTOMER_DELETED
  | REMINDER_CREATED
  | NOTIFICATION_CREATED
deriving DecidableEq, Repr

/-- `ReminderType` enum from the Prisma schema. -/
inductive ReminderType where
  | CALIBRATION
  | RENTAL
  | SCHEDULE
  | MAINTENANCE
deriving DecidableEq, Repr

/-- `ReminderStatus` enum from the Prisma schema. -/
inductive ReminderStatus where
  | PENDING
  | SENT
  | ACKNOWLEDGED
deriving DecidableEq, Repr

/-- The string a `RequestStatus` prints as inside a JS template literal. -/
def statusText : RequestStatus → String
  | .PENDING => "PENDING"
  | .APPROVED => "APPROVED"
  | .REJECTED => "REJECTED"
  | .COMPLETED => "COMPLETED"
  | .CANCELLED => "CANCELLED"

/-- `Item` model (the fields the rental routes read or write).
Timestamps are modelled as `Nat`. -/
structure Item where
  serialNumber : String
  name : String
  partNumber : String
  status : ItemStatus
deriving DecidableEq, Repr

/-- `Rental` model (the fields the rental routes read or write). -/
structure Rental where
  id : String
  itemSerial : String
  userId : String
  customerId : Option String
  poNumber : Option String
  doNumber : Option String
  status : RequestStatus
  startDate : Nat
  endDate : Option Nat
  returnDate : Option Nat
  renterName : Option String
  renterPhone : Option String
  renterAddress : Option String
  initialCondition : Option String
  returnCondition : Option String
deriving DecidableEq, Repr

/-- `RentalStatusLog` model. -/
structure RentalStatusLog where
  rentalId : String
  status : RequestStatus
  userId : String
  notes : String
deriving DecidableEq, Repr

/-- `ActivityLog` model (the columns the rental routes set; the unused
calibration/maintenance references are omitted, `none` throughout here). -/
structure ActivityLogRow where
  type : ActivityType
  action : String
  userId : String
  itemSerial : Option String
  rentalId : Option String
  affectedUserId : Option String
  customerId : Option String
deriving DecidableEq, Repr

/-- `ItemHistory` model. -/
structure ItemHistoryRow where
  itemSerial : String
  action : String
  relatedId : Option String
  endDate : Option Nat
deriving DecidableEq, Repr

/-- `Reminder` model (the fields the reminder scheduler touches). -/
structure Reminder where
  type : ReminderType
  status : ReminderStatus
  rentalId : Option String
  userId : String
  dueDate : Nat
  reminderDate : Nat
deriving DecidableEq, Repr

/-- `Notification` model (the fields the instant path sets). -/
structure Notification where
  title : String
  message : String
  isRead : Bool
  shouldPlaySound : Bool
  userId : String
deriving DecidableEq, Repr

/-- The slice of the relational database the rental routes touch.
Lists play the role of tables; `create` appends, `update` maps in place. -/
structure Store where
  items : List Item
  rentals : List Rental
  customers : List String
  rentalStatusLogs : List RentalStatusLog
  activityLogs : List ActivityLogRow
  itemHistories : List ItemHistoryRow
  reminders : List Reminder
  notifications : List Notification
deriving DecidableEq, Repr

/-- `tx.rental.update(\x7b where: \x7b id \x7d, data \x7d)`: rewrite the row
whose `id` matches. -/
def updateRentalList (rentals : List Rental) (id : String) (f : Rental → Rental) :
    List Rental :=
  rentals.map (fun r => if r.id == id then f r else r)

/-- `tx.item.update(\x7b where: \x7b serialNumber \x7d, data \x7d)`: rewrite the
row whose `serialNumber` matches. -/
def updateItemList (items : List Item) (serial : String) (f : Item → Item) :
    List Item :=
  items.map (fun it => if it.serialNumber == serial then f it else it)

/-- `prisma.rental.findUnique(\x7b where: \x7b id \x7d \x7d)`. -/
def findRental (st : Store) (id : String) : Option Rental :=
  st.rentals.find? (fun r => r.id == id)

/-- `prisma.item.findUnique(\x7b where: \x7b serialNumber \x7d \x7d)`. -/
def findItem (st : Store) (serial : String) : Option Item :=
  st.items.find? (fun it => it.serialNumber == serial)

/-- Errors the route handlers surface as non-2xx JSON responses. -/
inductive ApiError where
  | unauthorized
  | missingFields
  | notFound
  | customerNotFound
  | itemNotAvailable
  | internalError
deriving DecidableEq, Repr

/-- Outcome of one route invocation: the response (`none` = success JSON of
the updated record) and the store after the call. -/
structure HandlerResult where
  resp : Option ApiError
  store : Store
deriving DecidableEq, Repr

/-- COMPLETED, REJECTED and CANCELLED are the terminal request statuses. -/
def isTerminal : RequestStatus → Bool
  | .COMPLETED => true
  | .REJECTED => true
  | .CANCELLED => true
  | _ => false

/-- Modelled from the spec: the Reminder Scheduler lives in
`@/lib/reminder-service`, which is not among the provided sources.  Per spec
section 4.2: for a Rental the due date is `endDate` (no `endDate` means no
reminder is scheduled, a no-op); the reminder date is a fixed lead time
before the due date, floored at now; if a non-ACKNOWLEDGED Reminder of type
RENTAL for the same rental already exists it is updated in place, otherwise
one row is inserted. -/
def reminderLeadTime : Nat := 7

/-- Modelled from the spec: see `reminderLeadTime` for the missing module.
Schedules (insert-or-update) the RENTAL reminder for one rental. -/
def scheduleRentalReminder (st : Store) (r : Rental) (now : Nat) : Store :=
  match r.endDate with
  | none => st
  | some due =>
    let remDate := max now (due - reminderLeadTime)
    let sameRem := fun (rem : Reminder) =>
      rem.type == ReminderType.RENTAL && rem.rentalId == some r.id &&
        rem.status != ReminderStatus.ACKNOWLEDGED
    if st.reminders.any sameRem then
      { st with reminders := st.reminders.map (fun rem =>
          if sameRem rem then { rem with dueDate := due, reminderDate := remDate }
          else rem) }
    else
      { st with reminders := st.reminders ++
          [{ type := .RENTAL, status := .PENDING, rentalId := some r.id,
             userId := r.userId, dueDate := due, reminderDate := remDate }] }

/-- Modelled from the spec: `createInstantNotificationForReminder` lives in
`@/lib/notification-service`, which is not among the provided sources.  Per
spec section 4.3 (instant path): it ensures a Reminder exists for the record
(delegating to the Reminder Scheduler of section 4.2) and then immediately
materializes a Notification with `shouldPlaySound = true` for the record's
owning user. -/
def createInstantNotificationForReminder (st : Store) (rentalId : String)
    (now : Nat) : Store :=
  match findRental st rentalId with
  | none => st
  | some r =>
    let st1 := scheduleRentalReminder st r now
    { st1 with notifications := st1.notifications ++
        [{ title := "Rental Reminder",
           message := "Rental for item " ++ r.itemSerial,
           isRead := false, shouldPlaySound := true, userId := r.userId }] }

/-- Modelled from the spec: `handleRentalStatusChange` lives in
`@/lib/reminder-service`, which is not among the provided sources.  Per spec
section 4.1/4.2, on an APPROVED transition it delegates to the Reminder
Scheduler for the rental. -/
def handleRentalStatusChange (st : Store) (rentalId : String) (now : Nat) :
    Store :=
  match findRental st rentalId with
  | none => st
  | some r => scheduleRentalReminder st r now

/-- Modelled from the spec: `logRentalActivity` lives in
`@/lib/activity-logger`, which is not among the provided sources.  The call
site is commented "Create activity log" and per spec section 4.1(d) the
audit logger appends one ActivityLog row with the given type, acting user,
rental and item references and the human-readable details string. -/
def logRentalActivity (st : Store) (userId : String) (type : ActivityType)
    (rentalId itemSerial details : String) : Store :=
  { st with activityLogs := st.activityLogs ++
      [{ type := type, action := details, userId := userId,
         itemSerial := some itemSerial, rentalId := some rentalId,
         affectedUserId := none, customerId := none }] }

/-- Body of the `prisma.$transaction` of `PATCH` on the admin rental
collection route (src/unnamed/part_001, lines 365-448): rental update (with
returnDate stamping and returnCondition), status-log insert, ItemHistory
close on COMPLETED, derived item-status update, activity-log insert. -/
def patchRentalsTx (st : Store) (now : Nat) (adminId : String) (id : String)
    (cur : Rental) (status : RequestStatus)
    (notes returnCondition : Option String) : Store :=
  let rentals1 := updateRentalList st.rentals id (fun r =>
    { r with
      status := status,
      returnDate :=
        if status = RequestStatus.COMPLETED ∧ cur.returnDate = none then
          some now
        else r.returnDate,
      returnCondition :=
        match returnCondition with
        | some rc => some rc
        | none => r.returnCondition })
  let slog : RentalStatusLog :=
    { rentalId := id, status := status, userId := adminId,
      notes := notes.getD ("Status changed to " ++ statusText status) }
  let histories1 :=
    if status = RequestStatus.COMPLETED then
      st.itemHistories.map (fun h =>
        if h.itemSerial == cur.itemSerial && h.action == "RENTED" &&
            h.relatedId == some id && h.endDate == none then
          { h with endDate := some now }
        else h)
    else st.itemHistories
  let newItemStatus : Option ItemStatus :=
    if status = RequestStatus.APPROVED then some .RENTED
    else if status = RequestStatus.COMPLETED then some .AVAILABLE
    else if status = RequestStatus.REJECTED then some .AVAILABLE
    else none
  let items1 :=
    match newItemStatus with
    | some s => updateItemList st.items cur.itemSerial (fun it => { it with status := s })
    | none => st.items
  let alog : ActivityLogRow :=
    { type := .RENTAL_UPDATED,
      action := "Updated rental status to " ++ statusText status,
      userId := adminId, itemSerial := some cur.itemSerial,
      rentalId := some id, affectedUserId := some cur.userId,
      customerId := none }
  { st with
    rentals := rentals1,
    rentalStatusLogs := st.rentalStatusLogs ++ [slog],
    itemHistories := histories1,
    items := items1,
    activityLogs := st.activityLogs ++ [alog] }

/-- `PATCH` on the admin rental collection route (src/unnamed/part_001,
lines 333-466).  `txFails` models a failure of any operation inside the
`prisma.$transaction` (all-or-nothing rollback, the route's catch answers
500); `notifFails` models a rejection of the post-commit fire-and-forget
`createInstantNotificationForReminder` call, which the route catches and
logs without failing the response. -/
def patchRentals (st : Store) (now : Nat) (adminId : String) (id : String)
    (status : RequestStatus) (notes returnCondition : Option String)
    (txFails notifFails : Bool) : HandlerResult :=
  if id = "" then { resp := some .missingFields, store := st }
  else
    match findRental st id with
    | none => { resp := some .notFound, store := st }
    | some cur =>
      if txFails then { resp := some .internalError, store := st }
      else
        let st1 := patchRentalsTx st now adminId id cur status notes returnCondition
        let st2 :=
          if status = RequestStatus.APPROVED then
            if notifFails then st1
            else createInstantNotificationForReminder st1 id now
          else st1
        { resp := none, store := st2 }

/-- Body of the `prisma.$transaction` of `PATCH` on the admin rental by-id
route (src/unnamed/part_001, lines 719-786).  `status` is optional there
(`if (status) updateData.status = status`); `poNumber`/`doNumber` distinguish
absent (`none`) from an explicit null (`some none`), mirroring the
`!== undefined` checks. -/
def patchRentalByIdTx (st : Store) (now : Nat) (adminId rentalId : String)
    (cur : Rental) (status : Option RequestStatus) (notes : Option String)
    (poNumber doNumber : Option (Option String))
    (startDate endDate : Option Nat) : Store :=
  let rentals1 := updateRentalList st.rentals rentalId (fun r =>
    { r with
      status := status.getD r.status,
      poNumber := poNumber.getD r.poNumber,
      doNumber := doNumber.getD r.doNumber,
      startDate := startDate.getD r.startDate,
      endDate :=
        match endDate with
        | some e => some e
        | none => r.endDate,
      returnDate :=
        if status = some RequestStatus.COMPLETED ∧ cur.returnDate = none then
          some now
        else r.returnDate })
  match status with
  | some s =>
    let slog : RentalStatusLog :=
      { rentalId := rentalId, status := s, userId := adminId,
        notes := notes.getD ("Status updated to " ++ statusText s ++ " by admin") }
    let newItemStatus : Option ItemStatus :=
      if s = RequestStatus.APPROVED then some .RENTED
      else if s = RequestStatus.COMPLETED then some .AVAILABLE
      else if s = RequestStatus.REJECTED ∨ s = RequestStatus.CANCELLED then
        some .AVAILABLE
      else none
    let items1 :=
      match newItemStatus with
      | some ist =>
        updateItemList st.items cur.itemSerial (fun it => { it with status := ist })
      | none => st.items
    let alog : ActivityLogRow :=
      { type := .RENTAL_UPDATED,
        action := "Updated rental status to " ++ statusText s,
        userId := adminId, itemSerial := some cur.itemSerial,
        rentalId := some rentalId, affectedUserId := some cur.userId,
        customerId := none }
    { st with
      rentals := rentals1,
      rentalStatusLogs := st.rentalStatusLogs ++ [slog],
      items := items1,
      activityLogs := st.activityLogs ++ [alog] }
  | none =>
    let itemName := ((findItem st cur.itemSerial).map Item.name).getD ""
    let alog : ActivityLogRow :=
      { type := .RENTAL_UPDATED,
        action := "Updated rental details for " ++ itemName,
        userId := adminId, itemSerial := some cur.itemSerial,
        rentalId := some rentalId, affectedUserId := some cur.userId,
        customerId := none }
    { st with
      rentals := rentals1,
      activityLogs := st.activityLogs ++ [alog] }

/-- `PATCH` on the admin rental by-id route (src/unnamed/part_001, lines
671-815).  After the transaction the route always calls `logRentalActivity`
(a second ActivityLog row), and on an APPROVED status it calls
`handleRentalStatusChange` inside a try/catch (`notifFails` models its
rejection). -/
def patchRentalById (st : Store) (now : Nat) (adminId adminName rentalId : String)
    (status : Option RequestStatus) (notes : Option String)
    (poNumber doNumber : Option (Option String))
    (startDate endDate : Option Nat)
    (txFails notifFails : Bool) : HandlerResult :=
  match findRental st rentalId with
  | none => { resp := some .notFound, store := st }
  | some cur =>
    if txFails then { resp := some .internalError, store := st }
    else
      let st1 := patchRentalByIdTx st now adminId rentalId cur status notes
        poNumber doNumber startDate endDate
      let statusStr :=
        match status with
        | some s => statusText s
        | none => "undefined"
      let nameStr := if adminName = "" then "Unknown" else adminName
      let st2 := logRentalActivity st1 adminId .RENTAL_UPDATED rentalId
        cur.itemSerial ("Admin " ++ nameStr ++ " updated rental status to " ++ statusStr)
      let st3 :=
        if status = some RequestStatus.APPROVED then
          if notifFails then st2 else handleRentalStatusChange st2 rentalId now
        else st2
      { resp := none, store := st3 }

/-- `DELETE` on the admin rental by-id route (src/unnamed/part_001, lines
818-900): cancels the rental instead of deleting it.  The route reads
`rental.item` through the required relation; a store violating that
referential integrity is answered like the route's catch (500). -/
def deleteRentalById (st : Store) (adminId rentalId : String)
    (txFails : Bool) : HandlerResult :=
  match findRental st rentalId with
  | none => { resp := some .notFound, store := st }
  | some rental =>
    match findItem st rental.itemSerial with
    | none => { resp := some .internalError, store := st }
    | some item =>
      if txFails then { resp := some .internalError, store := st }
      else
        let rentals1 := updateRentalList st.rentals rentalId (fun r =>
          { r with status := RequestStatus.CANCELLED })
        let slog : RentalStatusLog :=
          { rentalId := rentalId, status := .CANCELLED, userId := adminId,
            notes := "Rental cancelled by admin" }
        let items1 :=
          if item.status = ItemStatus.RENTED then
            updateItemList st.items rental.itemSerial
              (fun it => { it with status := .AVAILABLE })
          else st.items
        let alog : ActivityLogRow :=
          { type := .RENTAL_UPDATED,
            action := "Cancelled rental for " ++ item.name,
            userId := adminId, itemSerial := some rental.itemSerial,
            rentalId := some rentalId, affectedUserId := some rental.userId,
            customerId := none }
        { resp := none,
          store := { st with
            rentals := rentals1,
            rentalStatusLogs := st.rentalStatusLogs ++ [slog],
            items := items1,
            activityLogs := st.activityLogs ++ [alog] } }

/-- The rental row `POST` creates inside its transaction (auto-approved). -/
def newAdminRental (newId itemSerial userId : String) (startDate : Nat)
    (endDate : Option Nat) (poNumber doNumber : Option String)
    (renterName renterPhone renterAddress initialCondition : Option String)
    (customerId : Option String) : Rental :=
  { id := newId, itemSerial := itemSerial, userId := userId,
    customerId := customerId, poNumber := poNumber, doNumber := doNumber,
    status := .APPROVED, startDate := startDate, endDate := endDate,
    returnDate := none, renterName := renterName, renterPhone := renterPhone,
    renterAddress := renterAddress, initialCondition := initialCondition,
    returnCondition := none }

/-- `POST` on the admin rental collection route (src/unnamed/part_001, lines
469-605): availability check, optional customer check, then one transaction
creating the APPROVED rental, its APPROVED status log, the item update to
RENTED and the RENTAL_CREATED activity log; post-commit the instant
notification call runs inside a try/catch (`notifFails`).  `newId` stands
for the generated uuid of the created row. -/
def postRentals (st : Store) (now : Nat) (adminId : String)
    (itemSerial : String) (startDate : Nat) (endDate : Option Nat)
    (poNumber doNumber customerId : Option String)
    (renterName renterPhone renterAddress initialCondition : Option String)
    (newId : String) (txFails notifFails : Bool) : HandlerResult :=
  if itemSerial = "" then { resp := some .missingFields, store := st }
  else
    match findItem st itemSerial with
    | none => { resp := some .notFound, store := st }
    | some item =>
      if item.status ≠ ItemStatus.AVAILABLE then
        { resp := some .itemNotAvailable, store := st }
      else
        let customerOk :=
          match customerId with
          | some cid => st.customers.contains cid
          | none => true
        if customerOk = false then { resp := some .customerNotFound, store := st }
        else if txFails then { resp := some .internalError, store := st }
        else
          let rental := newAdminRental newId itemSerial adminId startDate
            endDate poNumber doNumber renterName renterPhone renterAddress
            initialCondition customerId
          let slog : RentalStatusLog :=
            { rentalId := newId, status := .APPROVED, userId := adminId,
              notes := "Rental created and approved by admin" }
          let alog : ActivityLogRow :=
            { type := .RENTAL_CREATED,
              action := "Created new rental for " ++ item.name ++
                (if customerId.isSome then " for customer" else ""),
              userId := adminId, itemSerial := some itemSerial,
              rentalId := some newId, affectedUserId := some adminId,
              customerId := customerId }
          let st1 : Store :=
            { st with
              rentals := st.rentals ++ [rental],
              rentalStatusLogs := st.rentalStatusLogs ++ [slog],
              items := updateItemList st.items itemSerial
                (fun it => { it with status := .RENTED }),
              activityLogs := st.activityLogs ++ [alog] }
          let st2 :=
            if notifFails then st1
            else createInstantNotificationForReminder st1 newId now
          { resp := none, store := st2 }

/-! Fixtures for the concrete witnesses and counterexamples. -/

/-- One item with the given status. -/
def exItem (s : ItemStatus) : Item :=
  { serialNumber := "SN-001", name := "MeshGuard", partNumber := "FTD-2000",
    status := s }

/-- One rental of that item with the given status and return date. -/
def exRental (s : RequestStatus) (ret : Option Nat) : Rental :=
  { id := "r1", itemSerial := "SN-001", userId := "u1", customerId := none,
    poNumber := none, doNumber := none, status := s, startDate := 10,
    endDate := some 50, returnDate := ret, renterName := none,
    renterPhone := none, renterAddress := none, initialCondition := none,
    returnCondition := none }

/-- The open ItemHistory row the approval flow leaves behind. -/
def exHistory : ItemHistoryRow :=
  { itemSerial := "SN-001", action := "RENTED", relatedId := some "r1",
    endDate := none }

/-- A one-item one-rental store with empty log tables. -/
def exStore (istat : ItemStatus) (rstat : RequestStatus) (ret : Option Nat) :
    Store :=
  { items := [exItem istat], rentals := [exRental rstat ret], customers := [],
    rentalStatusLogs := [], activityLogs := [], itemHistories := [exHistory],
    reminders := [], notifications := [] }

/-! Helper lemmas. -/

/-- A point update (map touching only rows satisfying `p`, by a function that
does not change `p`) commutes with `find?`. -/
theorem find?_pointUpdate {α : Type} (l : List α) (p : α → Bool) (f : α → α)
    (hpf : ∀ x, p (f x) = p x) :
    (l.map (fun x => if p x then f x else x)).find? p = (l.find? p).map f := by
  induction l with
  | nil => rfl
  | cons a t ih =>
    by_cases h : p a
    · simp [List.find?_cons, h, hpf a]
    · simp [List.find?_cons, h, ih]

/-- `findRental` after `updateRentalList` for an id-preserving update. -/
theorem findRental_updateRentalList (st : Store) (id : String)
    (f : Rental → Rental) (hf : ∀ r, (f r).id = r.id) :
    (st.rentals.map (fun r => if r.id == id then f r else r)).find?
        (fun r => r.id == id) =
      (st.rentals.find? (fun r => r.id == id)).map f :=
  find?_pointUpdate st.rentals (fun r => r.id == id) f
    (fun r => by dsimp only; rw [hf])

/-- `findItem` after `updateItemList` for a serial-preserving update. -/
theorem findItem_updateItemList (st : Store) (serial : String)
    (f : Item → Item) (hf : ∀ it, (f it).serialNumber = it.serialNumber) :
    (st.items.map (fun it => if it.serialNumber == serial then f it else it)).find?
        (fun it => it.serialNumber == serial) =
      (st.items.find? (fun it => it.serialNumber == serial)).map f :=
  find?_pointUpdate st.items (fun it => it.serialNumber == serial) f
    (fun it => by dsimp only; rw [hf])

/-- The reminder scheduler only writes the `reminders` table. -/
theorem scheduleRentalReminder_eq (st : Store) (r : Rental) (now : Nat) :
    ∃ rem, scheduleRentalReminder st r now = { st with reminders := rem } := by
  unfold scheduleRentalReminder
  cases r.endDate with
  | none => exact ⟨st.reminders, rfl⟩
  | some due =>
    dsimp only
    split
    · exact ⟨_, rfl⟩
    · exact ⟨_, rfl⟩

/-- The instant notification path only writes the `reminders` and
`notifications` tables: the transactional tables are untouched. -/
theorem createInstantNotificationForReminder_eq (st : Store) (id : String)
    (now : Nat) :
    ∃ rem notif, createInstantNotificationForReminder st id now =
      { st with reminders := rem, notifications := notif } := by
  unfold createInstantNotificationForReminder
  cases h : findRental st id with
  | none => exact ⟨st.reminders, st.notifications, rfl⟩
  | some r =>
    dsimp only
    obtain ⟨rem, hrem⟩ := scheduleRentalReminder_eq st r now
    rw [hrem]
    exact ⟨rem, _, rfl⟩

/-- The by-id approval reminder hook only writes the `reminders` table. -/
theorem handleRentalStatusChange_eq (st : Store) (id : String) (now : Nat) :
    ∃ rem, handleRentalStatusChange st id now = { st with reminders := rem } := by
  unfold handleRentalStatusChange
  cases h : findRental st id with
  | none => exact ⟨st.reminders, rfl⟩
  | some r => dsimp only; exact scheduleRentalReminder_eq st r now

/-- The rental-row rewrite of the collection PATCH transaction, seen through
`findRental`. -/
theorem findRental_patchRentalsTx (st : Store) (now : Nat) (adminId id : String)
    (cur : Rental) (status : RequestStatus) (notes rc : Option String) :
    findRental (patchRentalsTx st now adminId id cur status notes rc) id =
      (findRental st id).map (fun r =>
        { r with
          status := status,
          returnDate :=
            if status = RequestStatus.COMPLETED ∧ cur.returnDate = none then
              some now
            else r.returnDate,
          returnCondition :=
            match rc with
            | some x => some x
            | none => r.returnCondition }) := by
  unfold patchRentalsTx findRental updateRentalList
  dsimp only
  exact find?_pointUpdate _ _ _ (fun r => rfl)

/-! Claim theorems. -/

/-- C1, counterexample: a COMPLETED (terminal) rental is patched to APPROVED
by the admin rental PATCH route; the call succeeds (there is no
IllegalTransitionError) and both the record's status and the linked item's
status change. -/
theorem c1_counterexample :
    (patchRentals (exStore .AVAILABLE .COMPLETED none) 100 "admin" "r1"
        .APPROVED none none false false).resp = none ∧
    ((patchRentals (exStore .AVAILABLE .COMPLETED none) 100 "admin" "r1"
        .APPROVED none none false false).store.rentals.map Rental.status) =
      [.APPROVED] ∧
    ((patchRentals (exStore .AVAILABLE .COMPLETED none) 100 "admin" "r1"
        .APPROVED none none false false).store.items.map Item.status) =
      [.RENTED] := by
  decide

/-- C2, counterexample: cancelling an APPROVED rental through the admin
collection PATCH succeeds, yet the linked item (RENTED) keeps status RENTED:
the handler derives no item status for CANCELLED. -/
theorem c2_counterexample :
    (patchRentals (exStore .RENTED .APPROVED none) 100 "admin" "r1"
        .CANCELLED none none false false).resp = none ∧
    ((patchRentals (exStore .RENTED .APPROVED none) 100 "admin" "r1"
        .CANCELLED none none false false).store.rentals.map Rental.status) =
      [.CANCELLED] ∧
    ((patchRentals (exStore .RENTED .APPROVED none) 100 "admin" "r1"
        .CANCELLED none none false false).store.items.map Item.status) =
      [.RENTED] := by
  decide

/-- C2 (amended): on a CANCELLED transition the item is reset to AVAILABLE
only on some paths: the by-id PATCH always sets the linked item AVAILABLE;
the admin delete path sets it AVAILABLE exactly when the item is currently
RENTED and otherwise leaves the items table untouched; the collection PATCH
leaves the items table unchanged on CANCELLED. -/
theorem c2_cancel_item_status (st : Store) (now : Nat)
    (adminId adminName id : String) (notes rc : Option String)
    (po dn : Option (Option String)) (sd ed : Option Nat)
    (cur : Rental) (item : Item)
    (hid : ¬ id = "") (hfind : findRental st id = some cur)
    (hitem : findItem st cur.itemSerial = some item) :
    (patchRentals st now adminId id .CANCELLED notes rc false false).store.items
      = st.items ∧
    (findItem (patchRentalById st now adminId adminName id (some .CANCELLED)
        notes po dn sd ed false false).store cur.itemSerial).map Item.status =
      some .AVAILABLE ∧
    (item.status = ItemStatus.RENTED →
      (findItem (deleteRentalById st adminId id false).store cur.itemSerial).map
        Item.status = some .AVAILABLE) ∧
    (item.status ≠ ItemStatus.RENTED →
      (deleteRentalById st adminId id false).store.items = st.items) := by
  refine ⟨?_, ?_, ?_, ?_⟩
  · unfold patchRentals
    rw [if_neg hid, hfind]
    dsimp only
    rw [if_neg (by decide : ¬ (false = true))]
    rw [if_neg (by decide : ¬ (RequestStatus.CANCELLED = RequestStatus.APPROVED))]
    rfl
  · unfold patchRentalById
    rw [hfind]
    dsimp only
    rw [if_neg (by decide : ¬ (false = true))]
    rw [if_neg (by decide :
      ¬ ((some RequestStatus.CANCELLED : Option RequestStatus) = some RequestStatus.APPROVED))]
    show (findItem { st with
        rentals := _, rentalStatusLogs := _,
        items := updateItemList st.items cur.itemSerial
          (fun it => { it with status := ItemStatus.AVAILABLE }),
        activityLogs := _ } cur.itemSerial).map Item.status = some ItemStatus.AVAILABLE
    unfold findItem updateItemList
    dsimp only
    rw [find?_pointUpdate st.items (fun it => it.serialNumber == cur.itemSerial)
      (fun it => { it with status := ItemStatus.AVAILABLE }) (fun it => rfl)]
    rw [show st.items.find? (fun it => it.serialNumber == cur.itemSerial) = some item from hitem]
    rfl
  · intro hR
    unfold deleteRentalById
    rw [hfind]
    dsimp only
    rw [hitem]
    dsimp only
    rw [if_neg (by decide : ¬ (false = true)), if_pos hR]
    unfold findItem updateItemList
    dsimp only
    rw [find?_pointUpdate st.items (fun it => it.serialNumber == cur.itemSerial)
      (fun it => { it with status := ItemStatus.AVAILABLE }) (fun it => rfl)]
    rw [show st.items.find? (fun it => it.serialNumber == cur.itemSerial) = some item from hitem]
    rfl
  · intro hR
    unfold deleteRentalById
    rw [hfind]
    dsimp only
    rw [hitem]
    dsimp only
    rw [if_neg (by decide : ¬ (false = true)), if_neg hR]

/-- C2, witness for the amended theorem at a concrete APPROVED rental on a
RENTED item. -/
theorem c2_witness :
    (patchRentals (exStore .RENTED .APPROVED none) 100 "admin" "r1" .CANCELLED
        none none false false).store.items =
      (exStore .RENTED .APPROVED none).items ∧
    (findItem (patchRentalById (exStore .RENTED .APPROVED none) 100 "admin"
        "Adm" "r1" (some .CANCELLED) none none none none none false
        false).store (exRental .APPROVED none).itemSerial).map Item.status =
      some .AVAILABLE ∧
    ((exItem .RENTED).status = ItemStatus.RENTED →
      (findItem (deleteRentalById (exStore .RENTED .APPROVED none) "admin" "r1"
          false).store (exRental .APPROVED none).itemSerial).map Item.status =
        some .AVAILABLE) ∧
    ((exItem .RENTED).status ≠ ItemStatus.RENTED →
      (deleteRentalById (exStore .RENTED .APPROVED none) "admin" "r1"
          false).store.items = (exStore .RENTED .APPROVED none).items) :=
  c2_cancel_item_status (exStore .RENTED .APPROVED none) 100 "admin" "Adm"
    "r1" none none none none none none (exRental .APPROVED none)
    (exItem .RENTED) (by decide) (by decide) (by decide)

/-- On success the collection PATCH's store is the transaction result plus,
possibly, reminder/notification writes from the post-commit path. -/
theorem patchRentals_success_store (st : Store) (now : Nat)
    (adminId id : String) (target : RequestStatus) (notes rc : Option String)
    (cur : Rental) (nf : Bool)
    (hid : ¬ id = "") (hfind : findRental st id = some cur) :
    ∃ rem notif,
      (patchRentals st now adminId id target notes rc false nf).store =
        { patchRentalsTx st now adminId id cur target notes rc with
          reminders := rem, notifications := notif } := by
  unfold patchRentals
  rw [if_neg hid, hfind]
  dsimp only
  rw [if_neg (by decide : ¬ (false = true))]
  by_cases ht : target = RequestStatus.APPROVED
  · rw [if_pos ht]
    cases nf with
    | false =>
      dsimp only
      obtain ⟨rem, notif, heq⟩ := createInstantNotificationForReminder_eq
        (patchRentalsTx st now adminId id cur target notes rc) id now
      exact ⟨rem, notif, by rw [if_neg (by decide : ¬ (false = true)), heq]⟩
    | true => exact ⟨_, _, rfl⟩
  · rw [if_neg ht]
    exact ⟨_, _, rfl⟩

/-- C3: the transition transactions are atomic.  A failure anywhere inside a
`$transaction` body (modelled by the failure flag) leaves the store exactly
as it was and surfaces as the route's 500 response — for the collection
PATCH, the by-id PATCH and the admin POST alike.  On success of the
collection PATCH, the record's status update, the derived item update, the
StatusLog insert and the ActivityLog insert are all present together in the
resulting store. -/
theorem c3_transaction_atomic (st : Store) (now : Nat)
    (adminId adminName id : String) (target : RequestStatus)
    (bstatus : Option RequestStatus) (notes rc : Option String)
    (po dn : Option (Option String)) (sd ed : Option Nat)
    (serial : String) (startDate : Nat) (endDate : Option Nat) (newId : String)
    (cur : Rental) (item : Item) (nf : Bool)
    (hid : ¬ id = "") (hfind : findRental st id = some cur)
    (hserial : ¬ serial = "") (hitem : findItem st serial = some item)
    (havail : item.status = ItemStatus.AVAILABLE) :
    (patchRentals st now adminId id target notes rc true nf).resp =
      some .internalError ∧
    (patchRentals st now adminId id target notes rc true nf).store = st ∧
    (patchRentalById st now adminId adminName id bstatus notes po dn sd ed
        true nf).store = st ∧
    (postRentals st now adminId serial startDate endDate none none none
        none none none none newId true nf).store = st ∧
    ((findRental (patchRentals st now adminId id target notes rc false nf).store
        id).map Rental.status = some target ∧
     (patchRentals st now adminId id target notes rc false nf).store.rentalStatusLogs =
       st.rentalStatusLogs ++
         [{ rentalId := id, status := target, userId := adminId,
            notes := notes.getD ("Status changed to " ++ statusText target) }] ∧
     (patchRentals st now adminId id target notes rc false nf).store.activityLogs =
       st.activityLogs ++
         [{ type := .RENTAL_UPDATED,
            action := "Updated rental status to " ++ statusText target,
            userId := adminId, itemSerial := some cur.itemSerial,
            rentalId := some id, affectedUserId := some cur.userId,
            customerId := none }] ∧
     (patchRentals st now adminId id target notes rc false nf).store.items =
       (match (if target = RequestStatus.APPROVED then some ItemStatus.RENTED
         else if target = RequestStatus.COMPLETED then some ItemStatus.AVAILABLE
         else if target = RequestStatus.REJECTED then some ItemStatus.AVAILABLE
         else none : Option ItemStatus) with
        | some s =>
          updateItemList st.items cur.itemSerial (fun it => { it with status := s })
        | none => st.items)) := by
  obtain ⟨rem, notif, heq⟩ := patchRentals_success_store st now adminId id
    target notes rc cur nf hid hfind
  refine ⟨?_, ?_, ?_, ?_, ?_, ?_, ?_, ?_⟩
  · unfold patchRentals
    rw [if_neg hid, hfind]
    rfl
  · unfold patchRentals
    rw [if_neg hid, hfind]
    rfl
  · unfold patchRentalById
    rw [hfind]
    rfl
  · unfold postRentals
    rw [if_neg hserial, hitem]
    dsimp only
    rw [if_neg (by rw [havail]; decide : ¬ item.status ≠ ItemStatus.AVAILABLE)]
    rfl
  · rw [heq]
    show (findRental (patchRentalsTx st now adminId id cur target notes rc) id).map
      Rental.status = some target
    rw [findRental_patchRentalsTx, hfind]
    rfl
  · rw [heq]
    rfl
  · rw [heq]
    rfl
  · rw [heq]
    rfl

/-- C3, witness at a concrete PENDING rental and AVAILABLE item. -/
theorem c3_witness :
    (patchRentals (exStore .AVAILABLE .PENDING none) 100 "admin" "r1"
        .APPROVED none none true false).resp = some .internalError ∧
    (patchRentals (exStore .AVAILABLE .PENDING none) 100 "admin" "r1"
        .APPROVED none none true false).store = exStore .AVAILABLE .PENDING none ∧
    (patchRentalById (exStore .AVAILABLE .PENDING none) 100 "admin" "Adm" "r1"
        none none none none none none true false).store =
      exStore .AVAILABLE .PENDING none ∧
    (postRentals (exStore .AVAILABLE .PENDING none) 100 "admin" "SN-001" 10
        (some 50) none none none none none none none "r2" true false).store =
      exStore .AVAILABLE .PENDING none ∧
    ((findRental (patchRentals (exStore .AVAILABLE .PENDING none) 100 "admin"
        "r1" .APPROVED none none false false).store "r1").map Rental.status =
      some .APPROVED ∧
     (patchRentals (exStore .AVAILABLE .PENDING none) 100 "admin" "r1"
        .APPROVED none none false false).store.rentalStatusLogs =
       (exStore .AVAILABLE .PENDING none).rentalStatusLogs ++
         [{ rentalId := "r1", status := .APPROVED, userId := "admin",
            notes := (none : Option String).getD
              ("Status changed to " ++ statusText .APPROVED) }] ∧
     (patchRentals (exStore .AVAILABLE .PENDING none) 100 "admin" "r1"
        .APPROVED none none false false).store.activityLogs =
       (exStore .AVAILABLE .PENDING none).activityLogs ++
         [{ type := .RENTAL_UPDATED,
            action := "Updated rental status to " ++ statusText .APPROVED,
            userId := "admin", itemSerial := some (exRental .PENDING none).itemSerial,
            rentalId := some "r1",
            affectedUserId := some (exRental .PENDING none).userId,
            customerId := none }] ∧
     (patchRentals (exStore .AVAILABLE .PENDING none) 100 "admin" "r1"
        .APPROVED none none false false).store.items =
       (match (if RequestStatus.APPROVED = RequestStatus.APPROVED then
           some ItemStatus.RENTED
         else if RequestStatus.APPROVED = RequestStatus.COMPLETED then
           some ItemStatus.AVAILABLE
         else if RequestStatus.APPROVED = RequestStatus.REJECTED then
           some ItemStatus.AVAILABLE
         else none : Option ItemStatus) with
        | some s =>
          updateItemList (exStore .AVAILABLE .PENDING none).items
            (exRental .PENDING none).itemSerial
            (fun it => { it with status := s })
        | none => (exStore .AVAILABLE .PENDING none).items)) :=
  c3_transaction_atomic (exStore .AVAILABLE .PENDING none) 100 "admin" "Adm"
    "r1" .APPROVED none none none none none none none "SN-001" 10 (some 50)
    "r2" (exRental .PENDING none) (exItem .AVAILABLE) false
    (by decide) (by decide) (by decide) (by decide) (by decide)

/-- C4: a successful PENDING-to-APPROVED transition through the collection
PATCH sets the linked item's status to RENTED and appends exactly one
StatusLog row and one ActivityLog row, both referencing the rental, within
the same operation. -/
theorem c4_approve_effects (st : Store) (now : Nat) (adminId id : String)
    (notes rc : Option String) (cur : Rental) (item : Item) (nf : Bool)
    (hid : ¬ id = "") (hfind : findRental st id = some cur)
    (_hpend : cur.status = RequestStatus.PENDING)
    (hitem : findItem st cur.itemSerial = some item) :
    (patchRentals st now adminId id .APPROVED notes rc false nf).resp = none ∧
    (findItem (patchRentals st now adminId id .APPROVED notes rc false
        nf).store cur.itemSerial).map Item.status = some .RENTED ∧
    (patchRentals st now adminId id .APPROVED notes rc false
        nf).store.rentalStatusLogs =
      st.rentalStatusLogs ++
        [{ rentalId := id, status := .APPROVED, userId := adminId,
           notes := notes.getD "Status changed to APPROVED" }] ∧
    (patchRentals st now adminId id .APPROVED notes rc false
        nf).store.activityLogs =
      st.activityLogs ++
        [{ type := .RENTAL_UPDATED,
           action := "Updated rental status to APPROVED",
           userId := adminId, itemSerial := some cur.itemSerial,
           rentalId := some id, affectedUserId := some cur.userId,
           customerId := none }] := by
  obtain ⟨rem, notif, heq⟩ := patchRentals_success_store st now adminId id
    .APPROVED notes rc cur nf hid hfind
  refine ⟨?_, ?_, ?_, ?_⟩
  · unfold patchRentals
    rw [if_neg hid, hfind]
    dsimp only
    rw [if_neg (by decide : ¬ (false = true))]
  · rw [heq]
    show (findItem (patchRentalsTx st now adminId id cur .APPROVED notes rc)
      cur.itemSerial).map Item.status = some .RENTED
    show ((updateItemList st.items cur.itemSerial
        (fun it => { it with status := ItemStatus.RENTED })).find?
        (fun it => it.serialNumber == cur.itemSerial)).map Item.status =
      some ItemStatus.RENTED
    unfold updateItemList
    rw [find?_pointUpdate st.items (fun it => it.serialNumber == cur.itemSerial)
      (fun it => { it with status := ItemStatus.RENTED }) (fun it => rfl)]
    rw [show st.items.find? (fun it => it.serialNumber == cur.itemSerial) =
      some item from hitem]
    rfl
  · rw [heq]
    rfl
  · rw [heq]
    rfl

/-- C4, witness at a concrete PENDING rental on an AVAILABLE item. -/
theorem c4_witness :
    (patchRentals (exStore .AVAILABLE .PENDING none) 100 "admin" "r1"
        .APPROVED none none false false).resp = none ∧
    (findItem (patchRentals (exStore .AVAILABLE .PENDING none) 100 "admin"
        "r1" .APPROVED none none false false).store
        (exRental .PENDING none).itemSerial).map Item.status = some .RENTED ∧
    (patchRentals (exStore .AVAILABLE .PENDING none) 100 "admin" "r1"
        .APPROVED none none false false).store.rentalStatusLogs =
      (exStore .AVAILABLE .PENDING none).rentalStatusLogs ++
        [{ rentalId := "r1", status := .APPROVED, userId := "admin",
           notes := (none : Option String).getD "Status changed to APPROVED" }] ∧
    (patchRentals (exStore .AVAILABLE .PENDING none) 100 "admin" "r1"
        .APPROVED none none false false).store.activityLogs =
      (exStore .AVAILABLE .PENDING none).activityLogs ++
        [{ type := .RENTAL_UPDATED,
           action := "Updated rental status to APPROVED",
           userId := "admin",
           itemSerial := some (exRental .PENDING none).itemSerial,
           rentalId := some "r1",
           affectedUserId := some (exRental .PENDING none).userId,
           customerId := none }] :=
  c4_approve_effects (exStore .AVAILABLE .PENDING none) 100 "admin" "r1"
    none none (exRental .PENDING none) (exItem .AVAILABLE) false
    (by decide) (by decide) (by decide) (by decide)

/-- The rental-row rewrite of the by-id PATCH transaction, seen through
`findRental`. -/
theorem findRental_patchRentalByIdTx (st : Store) (now : Nat)
    (adminId rentalId : String) (cur : Rental) (status : Option RequestStatus)
    (notes : Option String) (po dn : Option (Option String))
    (sd ed : Option Nat) :
    findRental (patchRentalByIdTx st now adminId rentalId cur status notes
        po dn sd ed) rentalId =
      (findRental st rentalId).map (fun r =>
        { r with
          status := status.getD r.status,
          poNumber := po.getD r.poNumber,
          doNumber := dn.getD r.doNumber,
          startDate := sd.getD r.startDate,
          endDate :=
            match ed with
            | some e => some e
            | none => r.endDate,
          returnDate :=
            if status = some RequestStatus.COMPLETED ∧ cur.returnDate = none then
              some now
            else r.returnDate }) := by
  unfold patchRentalByIdTx findRental updateRentalList
  cases status with
  | none =>
    dsimp only
    exact find?_pointUpdate _ _ _ (fun r => rfl)
  | some s =>
    dsimp only
    exact find?_pointUpdate _ _ _ (fun r => rfl)

/-- C5, counterexample: completing an APPROVED rental through the by-id
PATCH stamps the returnDate but does not close the open ItemHistory row
(endDate stays null) — only the collection PATCH updates ItemHistory. -/
theorem c5_counterexample :
    (patchRentalById (exStore .RENTED .APPROVED none) 100 "admin" "Adm" "r1"
        (some .COMPLETED) none none none none none false false).resp = none ∧
    ((patchRentalById (exStore .RENTED .APPROVED none) 100 "admin" "Adm" "r1"
        (some .COMPLETED) none none none none none false
        false).store.rentals.map Rental.returnDate) = [some 100] ∧
    ((patchRentalById (exStore .RENTED .APPROVED none) 100 "admin" "Adm" "r1"
        (some .COMPLETED) none none none none none false
        false).store.itemHistories.map ItemHistoryRow.endDate) = [none] := by
  decide

/-- C5 (amended): on a COMPLETED transition with no prior returnDate the
returnDate is stamped with the transition time (and an existing returnDate
is kept) on both PATCH routes, but only the collection PATCH closes the open
ItemHistory rows of the rental; the by-id PATCH leaves ItemHistory
untouched. -/
theorem c5_complete_returnDate_history (st : Store) (now : Nat)
    (adminId adminName id : String) (notes rc : Option String)
    (cur : Rental) (nf : Bool)
    (hid : ¬ id = "") (hfind : findRental st id = some cur) :
    ((findRental (patchRentals st now adminId id .COMPLETED notes rc false
        nf).store id).map Rental.returnDate =
      some (if cur.returnDate = none then some now else cur.returnDate)) ∧
    ((patchRentals st now adminId id .COMPLETED notes rc false
        nf).store.itemHistories =
      st.itemHistories.map (fun h =>
        if h.itemSerial == cur.itemSerial && h.action == "RENTED" &&
            h.relatedId == some id && h.endDate == none then
          { h with endDate := some now }
        else h)) ∧
    ((findRental (patchRentalById st now adminId adminName id (some .COMPLETED)
        notes none none none none false nf).store id).map Rental.returnDate =
      some (if cur.returnDate = none then some now else cur.returnDate)) ∧
    ((patchRentalById st now adminId adminName id (some .COMPLETED)
        notes none none none none false nf).store.itemHistories =
      st.itemHistories) := by
  obtain ⟨rem, notif, heq⟩ := patchRentals_success_store st now adminId id
    .COMPLETED notes rc cur nf hid hfind
  refine ⟨?_, ?_, ?_, ?_⟩
  · rw [heq]
    show (findRental (patchRentalsTx st now adminId id cur .COMPLETED notes rc)
      id).map Rental.returnDate = _
    rw [findRental_patchRentalsTx, hfind]
    simp
  · rw [heq]
    rfl
  · unfold patchRentalById
    rw [hfind]
    dsimp only
    rw [if_neg (by decide : ¬ (false = true))]
    rw [if_neg (by decide :
      ¬ ((some RequestStatus.COMPLETED : Option RequestStatus) =
        some RequestStatus.APPROVED))]
    show (findRental (patchRentalByIdTx st now adminId id cur (some .COMPLETED)
      notes none none none none) id).map Rental.returnDate = _
    rw [findRental_patchRentalByIdTx, hfind]
    simp
  · unfold patchRentalById
    rw [hfind]
    dsimp only
    rw [if_neg (by decide : ¬ (false = true))]
    rw [if_neg (by decide :
      ¬ ((some RequestStatus.COMPLETED : Option RequestStatus) =
        some RequestStatus.APPROVED))]
    rfl

/-- C5, witness at a concrete APPROVED rental with an open history row. -/
theorem c5_witness :
    ((findRental (patchRentals (exStore .RENTED .APPROVED none) 100 "admin"
        "r1" .COMPLETED none none false false).store "r1").map
        Rental.returnDate =
      some (if (exRental .APPROVED none).returnDate = none then some 100
        else (exRental .APPROVED none).returnDate)) ∧
    ((patchRentals (exStore .RENTED .APPROVED none) 100 "admin" "r1"
        .COMPLETED none none false false).store.itemHistories =
      (exStore .RENTED .APPROVED none).itemHistories.map (fun h =>
        if h.itemSerial == (exRental .APPROVED none).itemSerial &&
            h.action == "RENTED" && h.relatedId == some "r1" &&
            h.endDate == none then
          { h with endDate := some 100 }
        else h)) ∧
    ((findRental (patchRentalById (exStore .RENTED .APPROVED none) 100 "admin"
        "Adm" "r1" (some .COMPLETED) none none none none none false
        false).store "r1").map Rental.returnDate =
      some (if (exRental .APPROVED none).returnDate = none then some 100
        else (exRental .APPROVED none).returnDate)) ∧
    ((patchRentalById (exStore .RENTED .APPROVED none) 100 "admin" "Adm" "r1"
        (some .COMPLETED) none none none none none false
        false).store.itemHistories =
      (exStore .RENTED .APPROVED none).itemHistories) :=
  c5_complete_returnDate_history (exStore .RENTED .APPROVED none) 100 "admin"
    "Adm" "r1" none none (exRental .APPROVED none) false
    (by decide) (by decide)

/-- C6, counterexample: a by-id PATCH carrying a status writes one
StatusLog row but two ActivityLog rows (the transaction row plus the
post-transaction `logRentalActivity` row), violating "never more than one". -/
theorem c6_counterexample :
    (patchRentalById (exStore .AVAILABLE .PENDING none) 100 "admin" "Adm" "r1"
        (some .REJECTED) none none none none none false false).resp = none ∧
    (patchRentalById (exStore .AVAILABLE .PENDING none) 100 "admin" "Adm" "r1"
        (some .REJECTED) none none none none none false
        false).store.rentalStatusLogs.length = 1 ∧
    (patchRentalById (exStore .AVAILABLE .PENDING none) 100 "admin" "Adm" "r1"
        (some .REJECTED) none none none none none false
        false).store.activityLogs.length = 2 := by
  decide

/-- On success the by-id PATCH's store is the transaction result, then the
post-transaction `logRentalActivity` row, plus possibly reminder writes. -/
theorem patchRentalById_success_store (st : Store) (now : Nat)
    (adminId adminName id : String) (status : Option RequestStatus)
    (notes : Option String) (po dn : Option (Option String))
    (sd ed : Option Nat) (cur : Rental) (nf : Bool)
    (hfind : findRental st id = some cur) :
    ∃ rem,
      (patchRentalById st now adminId adminName id status notes po dn sd ed
          false nf).store =
        { logRentalActivity
            (patchRentalByIdTx st now adminId id cur status notes po dn sd ed)
            adminId .RENTAL_UPDATED id cur.itemSerial
            ("Admin " ++ (if adminName = "" then "Unknown" else adminName) ++
              " updated rental status to " ++
              (match status with
               | some s => statusText s
               | none => "undefined")) with
          reminders := rem } := by
  unfold patchRentalById
  rw [hfind]
  dsimp only
  rw [if_neg (by decide : ¬ (false = true))]
  by_cases hs : status = some RequestStatus.APPROVED
  · subst hs
    rw [if_pos rfl]
    cases nf with
    | false =>
      rw [if_neg (by decide : ¬ (false = true))]
      exact handleRentalStatusChange_eq _ id now
    | true => exact ⟨_, rfl⟩
  · rw [if_neg hs]
    exact ⟨_, rfl⟩

/-- C1 (amended): neither status-transition route performs terminal-status
validation.  For any rental whose current status is terminal (COMPLETED,
REJECTED or CANCELLED), both the collection PATCH and the by-id PATCH accept
any target status: the call succeeds, the stored record's status is
overwritten with the target, and the linked item's status is rederived by
each route's derivation table exactly as for a non-terminal record. -/
theorem c1_terminal_transition_applied (st : Store) (now : Nat)
    (adminId adminName id : String) (target : RequestStatus)
    (notes rc : Option String) (cur : Rental) (nf : Bool)
    (hid : ¬ id = "") (hfind : findRental st id = some cur)
    (_hterm : isTerminal cur.status = true) :
    ((patchRentals st now adminId id target notes rc false nf).resp = none ∧
     (findRental (patchRentals st now adminId id target notes rc false
        nf).store id).map Rental.status = some target ∧
     (patchRentals st now adminId id target notes rc false nf).store.items =
       (match (if target = RequestStatus.APPROVED then some ItemStatus.RENTED
         else if target = RequestStatus.COMPLETED then some ItemStatus.AVAILABLE
         else if target = RequestStatus.REJECTED then some ItemStatus.AVAILABLE
         else none : Option ItemStatus) with
        | some s =>
          updateItemList st.items cur.itemSerial
            (fun it => { it with status := s })
        | none => st.items)) ∧
    ((patchRentalById st now adminId adminName id (some target) notes none
        none none none false nf).resp = none ∧
     (findRental (patchRentalById st now adminId adminName id (some target)
        notes none none none none false nf).store id).map Rental.status =
       some target ∧
     (patchRentalById st now adminId adminName id (some target) notes none
        none none none false nf).store.items =
       (match (if target = RequestStatus.APPROVED then some ItemStatus.RENTED
         else if target = RequestStatus.COMPLETED then some ItemStatus.AVAILABLE
         else if target = RequestStatus.REJECTED ∨
             target = RequestStatus.CANCELLED then some ItemStatus.AVAILABLE
         else none : Option ItemStatus) with
        | some s =>
          updateItemList st.items cur.itemSerial
            (fun it => { it with status := s })
        | none => st.items)) := by
  obtain ⟨rem, notif, heq⟩ := patchRentals_success_store st now adminId id
    target notes rc cur nf hid hfind
  obtain ⟨rem2, heq2⟩ := patchRentalById_success_store st now adminId
    adminName id (some target) notes none none none none cur nf hfind
  refine ⟨⟨?_, ?_, ?_⟩, ⟨?_, ?_, ?_⟩⟩
  · unfold patchRentals
    rw [if_neg hid, hfind]
    dsimp only
    rw [if_neg (by decide : ¬ (false = true))]
  · rw [heq]
    show (findRental (patchRentalsTx st now adminId id cur target notes rc)
      id).map Rental.status = some target
    rw [findRental_patchRentalsTx, hfind]
    rfl
  · rw [heq]
    rfl
  · unfold patchRentalById
    rw [hfind]
    dsimp only
    rw [if_neg (by decide : ¬ (false = true))]
  · rw [heq2]
    show (findRental (patchRentalByIdTx st now adminId id cur (some target)
      notes none none none none) id).map Rental.status = some target
    rw [findRental_patchRentalByIdTx, hfind]
    rfl
  · rw [heq2]
    rfl

/-- C6 (amended): each successful transition inserts exactly one StatusLog
row (supplied notes, or the route default when absent) and the collection
PATCH inserts exactly one ActivityLog row referencing the item, the rental
and the owning user; the by-id PATCH inserts that row plus a second
ActivityLog row appended by `logRentalActivity` after the transaction, so it
yields two. -/
theorem c6_log_rows (st : Store) (now : Nat)
    (adminId adminName id : String) (target : RequestStatus)
    (notes rc : Option String) (cur : Rental) (nf : Bool)
    (hid : ¬ id = "") (hfind : findRental st id = some cur) :
    ((patchRentals st now adminId id target notes rc false nf).resp = none ∧
     (patchRentals st now adminId id target notes rc false
        nf).store.rentalStatusLogs =
       st.rentalStatusLogs ++
         [{ rentalId := id, status := target, userId := adminId,
            notes := notes.getD ("Status changed to " ++ statusText target) }] ∧
     (patchRentals st now adminId id target notes rc false
        nf).store.activityLogs =
       st.activityLogs ++
         [{ type := .RENTAL_UPDATED,
            action := "Updated rental status to " ++ statusText target,
            userId := adminId, itemSerial := some cur.itemSerial,
            rentalId := some id, affectedUserId := some cur.userId,
            customerId := none }]) ∧
    ((patchRentalById st now adminId adminName id (some target) notes none
        none none none false nf).resp = none ∧
     (patchRentalById st now adminId adminName id (some target) notes none
        none none none false nf).store.rentalStatusLogs =
       st.rentalStatusLogs ++
         [{ rentalId := id, status := target, userId := adminId,
            notes := notes.getD
              ("Status updated to " ++ statusText target ++ " by admin") }] ∧
     (patchRentalById st now adminId adminName id (some target) notes none
        none none none false nf).store.activityLogs =
       st.activityLogs ++
         [{ type := .RENTAL_UPDATED,
            action := "Updated rental status to " ++ statusText target,
            userId := adminId, itemSerial := some cur.itemSerial,
            rentalId := some id, affectedUserId := some cur.userId,
            customerId := none },
          { type := .RENTAL_UPDATED,
            action := "Admin " ++ (if adminName = "" then "Unknown" else adminName) ++
              " updated rental status to " ++ statusText target,
            userId := adminId, itemSerial := some cur.itemSerial,
            rentalId := some id, affectedUserId := none,
            customerId := none }]) := by
  obtain ⟨rem, notif, heq⟩ := patchRentals_success_store st now adminId id
    target notes rc cur nf hid hfind
  obtain ⟨rem2, heq2⟩ := patchRentalById_success_store st now adminId adminName
    id (some target) notes none none none none cur nf hfind
  refine ⟨⟨?_, ?_, ?_⟩, ⟨?_, ?_, ?_⟩⟩
  · unfold patchRentals
    rw [if_neg hid, hfind]
    dsimp only
    rw [if_neg (by decide : ¬ (false = true))]
  · rw [heq]
    rfl
  · rw [heq]
    rfl
  · unfold patchRentalById
    rw [hfind]
    dsimp only
    rw [if_neg (by decide : ¬ (false = true))]
  · rw [heq2]
    rfl
  · rw [heq2]
    show (patchRentalByIdTx st now adminId id cur (some target) notes none
        none none none).activityLogs ++ _ = _
    show (st.activityLogs ++ _) ++ _ = _
    simp

/-- C6, witness at a concrete PENDING rental for both PATCH routes. -/
theorem c6_witness :
    (((patchRentals (exStore .AVAILABLE .PENDING none) 100 "admin" "r1"
        .REJECTED none none false false).resp = none ∧
     (patchRentals (exStore .AVAILABLE .PENDING none) 100 "admin" "r1"
        .REJECTED none none false false).store.rentalStatusLogs =
       (exStore .AVAILABLE .PENDING none).rentalStatusLogs ++
         [{ rentalId := "r1", status := .REJECTED, userId := "admin",
            notes := (none : Option String).getD
              ("Status changed to " ++ statusText .REJECTED) }] ∧
     (patchRentals (exStore .AVAILABLE .PENDING none) 100 "admin" "r1"
        .REJECTED none none false false).store.activityLogs =
       (exStore .AVAILABLE .PENDING none).activityLogs ++
         [{ type := .RENTAL_UPDATED,
            action := "Updated rental status to " ++ statusText .REJECTED,
            userId := "admin",
            itemSerial := some (exRental .PENDING none).itemSerial,
            rentalId := some "r1",
            affectedUserId := some (exRental .PENDING none).userId,
            customerId := none }]) ∧
    ((patchRentalById (exStore .AVAILABLE .PENDING none) 100 "admin" "Adm"
        "r1" (some .REJECTED) none none none none none false false).resp =
      none ∧
     (patchRentalById (exStore .AVAILABLE .PENDING none) 100 "admin" "Adm"
        "r1" (some .REJECTED) none none none none none false
        false).store.rentalStatusLogs =
       (exStore .AVAILABLE .PENDING none).rentalStatusLogs ++
         [{ rentalId := "r1", status := .REJECTED, userId := "admin",
            notes := (none : Option String).getD
              ("Status updated to " ++ statusText .REJECTED ++ " by admin") }] ∧
     (patchRentalById (exStore .AVAILABLE .PENDING none) 100 "admin" "Adm"
        "r1" (some .REJECTED) none none none none none false
        false).store.activityLogs =
       (exStore .AVAILABLE .PENDING none).activityLogs ++
         [{ type := .RENTAL_UPDATED,
            action := "Updated rental status to " ++ statusText .REJECTED,
            userId := "admin",
            itemSerial := some (exRental .PENDING none).itemSerial,
            rentalId := some "r1",
            affectedUserId := some (exRental .PENDING none).userId,
            customerId := none },
          { type := .RENTAL_UPDATED,
            action := "Admin " ++ (if ("Adm" : String) = "" then "Unknown" else "Adm") ++
              " updated rental status to " ++ statusText .REJECTED,
            userId := "admin",
            itemSerial := some (exRental .PENDING none).itemSerial,
            rentalId := some "r1", affectedUserId := none,
            customerId := none }])) :=
  c6_log_rows (exStore .AVAILABLE .PENDING none) 100 "admin" "Adm" "r1"
    .REJECTED none none (exRental .PENDING none) false (by decide) (by decide)


/-- C7: creating a rental against an item that is not AVAILABLE fails with
the item-not-available error and returns the store completely unchanged —
no record, log or item mutation of any kind. -/
theorem c7_item_not_available (st : Store) (now : Nat)
    (adminId serial : String) (startDate : Nat) (endDate : Option Nat)
    (po dn cid rn rp ra ic : Option String) (newId : String) (tf nf : Bool)
    (item : Item)
    (hserial : ¬ serial = "") (hitem : findItem st serial = some item)
    (hna : item.status ≠ ItemStatus.AVAILABLE) :
    postRentals st now adminId serial startDate endDate po dn cid rn rp ra ic
        newId tf nf =
      { resp := some .itemNotAvailable, store := st } := by
  unfold postRentals
  rw [if_neg hserial, hitem]
  dsimp only
  rw [if_pos hna]

/-- C7, witness at a concrete RENTED item. -/
theorem c7_witness :
    postRentals (exStore .RENTED .APPROVED none) 100 "admin" "SN-001" 10
        (some 50) none none none none none none none "r2" false false =
      { resp := some .itemNotAvailable,
        store := exStore .RENTED .APPROVED none } :=
  c7_item_not_available (exStore .RENTED .APPROVED none) 100 "admin" "SN-001"
    10 (some 50) none none none none none none none "r2" false false
    (exItem .RENTED) (by decide) (by decide) (by decide)

/-- C8: a failing post-commit reminder/notification call never propagates:
with the notification path failing, the APPROVED collection PATCH and the
admin POST still answer success, and the store they leave behind is exactly
the committed transaction state — nothing is rolled back. -/
theorem c8_notification_failure_swallowed (st : Store) (now : Nat)
    (adminId id : String) (notes rc : Option String) (cur : Rental)
    (serial : String) (startDate : Nat) (endDate : Option Nat)
    (po dn rn rp ra ic : Option String) (newId : String) (item : Item)
    (hid : ¬ id = "") (hfind : findRental st id = some cur)
    (hserial : ¬ serial = "") (hitem : findItem st serial = some item)
    (havail : item.status = ItemStatus.AVAILABLE) :
    (patchRentals st now adminId id .APPROVED notes rc false true).resp =
      none ∧
    (patchRentals st now adminId id .APPROVED notes rc false true).store =
      patchRentalsTx st now adminId id cur .APPROVED notes rc ∧
    (postRentals st now adminId serial startDate endDate po dn none rn rp ra
        ic newId false true).resp = none ∧
    (postRentals st now adminId serial startDate endDate po dn none rn rp ra
        ic newId false true).store =
      { st with
        rentals := st.rentals ++
          [newAdminRental newId serial adminId startDate endDate po dn rn rp
            ra ic none],
        rentalStatusLogs := st.rentalStatusLogs ++
          [{ rentalId := newId, status := .APPROVED, userId := adminId,
             notes := "Rental created and approved by admin" }],
        items := updateItemList st.items serial
          (fun it => { it with status := .RENTED }),
        activityLogs := st.activityLogs ++
          [{ type := .RENTAL_CREATED,
             action := "Created new rental for " ++ item.name ++
               (if (none : Option String).isSome then " for customer" else ""),
             userId := adminId, itemSerial := some serial,
             rentalId := some newId, affectedUserId := some adminId,
             customerId := none }] } := by
  refine ⟨?_, ?_, ?_, ?_⟩
  · unfold patchRentals
    rw [if_neg hid, hfind]
    rfl
  · unfold patchRentals
    rw [if_neg hid, hfind]
    rfl
  · unfold postRentals
    rw [if_neg hserial, hitem]
    dsimp only
    rw [if_neg (by rw [havail]; decide : ¬ item.status ≠ ItemStatus.AVAILABLE)]
    rfl
  · unfold postRentals
    rw [if_neg hserial, hitem]
    dsimp only
    rw [if_neg (by rw [havail]; decide : ¬ item.status ≠ ItemStatus.AVAILABLE)]
    rfl

/-- C8, witness at a concrete PENDING rental and AVAILABLE item. -/
theorem c8_witness :
    (patchRentals (exStore .AVAILABLE .PENDING none) 100 "admin" "r1"
        .APPROVED none none false true).resp = none ∧
    (patchRentals (exStore .AVAILABLE .PENDING none) 100 "admin" "r1"
        .APPROVED none none false true).store =
      patchRentalsTx (exStore .AVAILABLE .PENDING none) 100 "admin" "r1"
        (exRental .PENDING none) .APPROVED none none ∧
    (postRentals (exStore .AVAILABLE .PENDING none) 100 "admin" "SN-001" 10
        (some 50) none none none none none none none "r2" false true).resp =
      none ∧
    (postRentals (exStore .AVAILABLE .PENDING none) 100 "admin" "SN-001" 10
        (some 50) none none none none none none none "r2" false true).store =
      { exStore .AVAILABLE .PENDING none with
        rentals := (exStore .AVAILABLE .PENDING none).rentals ++
          [newAdminRental "r2" "SN-001" "admin" 10 (some 50) none none none
            none none none none],
        rentalStatusLogs :=
          (exStore .AVAILABLE .PENDING none).rentalStatusLogs ++
            [{ rentalId := "r2", status := .APPROVED, userId := "admin",
               notes := "Rental created and approved by admin" }],
        items := updateItemList (exStore .AVAILABLE .PENDING none).items
          "SN-001" (fun it => { it with status := .RENTED }),
        activityLogs := (exStore .AVAILABLE .PENDING none).activityLogs ++
          [{ type := .RENTAL_CREATED,
             action := "Created new rental for " ++ (exItem .AVAILABLE).name ++
               (if (none : Option String).isSome then " for customer" else ""),
             userId := "admin", itemSerial := some "SN-001",
             rentalId := some "r2", affectedUserId := some "admin",
             customerId := none }] } :=
  c8_notification_failure_swallowed (exStore .AVAILABLE .PENDING none) 100
    "admin" "r1" none none (exRental .PENDING none) "SN-001" 10 (some 50)
    none none none none none none "r2" (exItem .AVAILABLE)
    (by decide) (by decide) (by decide) (by decide) (by decide)


/-- `find?` over a one-element extension: when nothing in `l` matches and
the appended element does, the appended element is found. -/
theorem find?_append_singleton {α : Type} (l : List α) (p : α → Bool) (x : α)
    (hl : l.find? p = none) (hx : p x = true) :
    (l ++ [x]).find? p = some x := by
  induction l with
  | nil => simp [List.find?, hx]
  | cons a t ih =>
    cases h : p a with
    | true =>
      rw [List.find?_cons_of_pos t h] at hl
      exact absurd hl (by simp)
    | false =>
      rw [List.find?_cons_of_neg t (by rw [h]; decide)] at hl
      simp only [List.cons_append]
      rw [List.find?_cons_of_neg _ (by rw [h]; decide)]
      exact ih hl


/-- C9: admin rental creation (auto-approve): one atomic transaction leaves
an APPROVED rental, the item RENTED, one StatusLog(APPROVED) row and one
ActivityLog(RENTAL_CREATED) row, and the instant notification (modelled from
the spec, `shouldPlaySound = true`) is appended after the commit. -/
theorem c9_admin_create_rental (st : Store) (now : Nat)
    (adminId serial : String) (startDate : Nat) (endDate : Option Nat)
    (po dn rn rp ra ic : Option String) (newId : String) (item : Item)
    (hserial : ¬ serial = "") (hitem : findItem st serial = some item)
    (havail : item.status = ItemStatus.AVAILABLE)
    (hfresh : st.rentals.find? (fun r => r.id == newId) = none) :
    (postRentals st now adminId serial startDate endDate po dn none rn rp ra
        ic newId false false).resp = none ∧
    ((findRental (postRentals st now adminId serial startDate endDate po dn
        none rn rp ra ic newId false false).store newId).map Rental.status =
      some .APPROVED) ∧
    ((findItem (postRentals st now adminId serial startDate endDate po dn
        none rn rp ra ic newId false false).store serial).map Item.status =
      some .RENTED) ∧
    ((postRentals st now adminId serial startDate endDate po dn none rn rp ra
        ic newId false false).store.rentalStatusLogs =
      st.rentalStatusLogs ++
        [{ rentalId := newId, status := .APPROVED, userId := adminId,
           notes := "Rental created and approved by admin" }]) ∧
    ((postRentals st now adminId serial startDate endDate po dn none rn rp ra
        ic newId false false).store.activityLogs =
      st.activityLogs ++
        [{ type := .RENTAL_CREATED,
           action := "Created new rental for " ++ item.name ++
             (if (none : Option String).isSome then " for customer" else ""),
           userId := adminId, itemSerial := some serial,
           rentalId := some newId, affectedUserId := some adminId,
           customerId := none }]) ∧
    ((postRentals st now adminId serial startDate endDate po dn none rn rp ra
        ic newId false false).store.notifications =
      st.notifications ++
        [{ title := "Rental Reminder",
           message := "Rental for item " ++ serial,
           isRead := false, shouldPlaySound := true, userId := adminId }]) := by
  have hfind1 : findRental
      { st with
        rentals := st.rentals ++
          [newAdminRental newId serial adminId startDate endDate po dn rn rp
            ra ic none],
        rentalStatusLogs := st.rentalStatusLogs ++
          [{ rentalId := newId, status := .APPROVED, userId := adminId,
             notes := "Rental created and approved by admin" }],
        items := updateItemList st.items serial
          (fun it => { it with status := .RENTED }),
        activityLogs := st.activityLogs ++
          [{ type := .RENTAL_CREATED,
             action := "Created new rental for " ++ item.name ++
               (if (none : Option String).isSome then " for customer" else ""),
             userId := adminId, itemSerial := some serial,
             rentalId := some newId, affectedUserId := some adminId,
             customerId := none }] } newId =
      some (newAdminRental newId serial adminId startDate endDate po dn rn rp
        ra ic none) := by
    show (st.rentals ++ [newAdminRental newId serial adminId startDate endDate
        po dn rn rp ra ic none]).find? (fun r => r.id == newId) = _
    exact find?_append_singleton st.rentals _ _ hfresh (by simp [newAdminRental])
  unfold postRentals
  rw [if_neg hserial, hitem]
  dsimp only
  rw [if_neg (by rw [havail]; decide : ¬ item.status ≠ ItemStatus.AVAILABLE)]
  rw [if_neg (by decide : ¬ (true = false)),
    if_neg (by decide : ¬ (false = true)),
    if_neg (by decide : ¬ (false = true))]
  unfold createInstantNotificationForReminder
  rw [hfind1]
  dsimp only
  obtain ⟨rem, hrem⟩ := scheduleRentalReminder_eq _
    (newAdminRental newId serial adminId startDate endDate po dn rn rp ra ic
      none) now
  rw [hrem]
  refine ⟨rfl, ?_, ?_, rfl, rfl, rfl⟩
  · show ((st.rentals ++ [newAdminRental newId serial adminId startDate endDate
        po dn rn rp ra ic none]).find? (fun r => r.id == newId)).map
      Rental.status = some RequestStatus.APPROVED
    rw [find?_append_singleton st.rentals _ _ hfresh (by simp [newAdminRental])]
    rfl
  · show ((updateItemList st.items serial
        (fun it => { it with status := ItemStatus.RENTED })).find?
        (fun it => it.serialNumber == serial)).map Item.status =
      some ItemStatus.RENTED
    unfold updateItemList
    rw [find?_pointUpdate st.items (fun it => it.serialNumber == serial)
      (fun it => { it with status := ItemStatus.RENTED }) (fun it => rfl)]
    rw [show st.items.find? (fun it => it.serialNumber == serial) =
      some item from hitem]
    rfl

/-- C9, witness for a concrete creation against an AVAILABLE item. -/
theorem c9_witness :
    (postRentals (exStore .AVAILABLE .PENDING none) 100 "admin" "SN-001" 10
        (some 50) none none none none none none none "r2" false false).resp =
      none ∧
    ((findRental (postRentals (exStore .AVAILABLE .PENDING none) 100 "admin"
        "SN-001" 10 (some 50) none none none none none none none "r2" false
        false).store "r2").map Rental.status = some .APPROVED) ∧
    ((findItem (postRentals (exStore .AVAILABLE .PENDING none) 100 "admin"
        "SN-001" 10 (some 50) none none none none none none none "r2" false
        false).store "SN-001").map Item.status = some .RENTED) ∧
    ((postRentals (exStore .AVAILABLE .PENDING none) 100 "admin" "SN-001" 10
        (some 50) none none none none none none none "r2" false
        false).store.rentalStatusLogs =
      (exStore .AVAILABLE .PENDING none).rentalStatusLogs ++
        [{ rentalId := "r2", status := .APPROVED, userId := "admin",
           notes := "Rental created and approved by admin" }]) ∧
    ((postRentals (exStore .AVAILABLE .PENDING none) 100 "admin" "SN-001" 10
        (some 50) none none none none none none none "r2" false
        false).store.activityLogs =
      (exStore .AVAILABLE .PENDING none).activityLogs ++
        [{ type := .RENTAL_CREATED,
           action := "Created new rental for " ++ (exItem .AVAILABLE).name ++
             (if (none : Option String).isSome then " for customer" else ""),
           userId := "admin", itemSerial := some "SN-001",
           rentalId := some "r2", affectedUserId := some "admin",
           customerId := none }]) ∧
    ((postRentals (exStore .AVAILABLE .PENDING none) 100 "admin" "SN-001" 10
        (some 50) none none none none none none none "r2" false
        false).store.notifications =
      (exStore .AVAILABLE .PENDING none).notifications ++
        [{ title := "Rental Reminder",
           message := "Rental for item " ++ "SN-001",
           isRead := false, shouldPlaySound := true, userId := "admin" }]) :=
  c9_admin_create_rental (exStore .AVAILABLE .PENDING none) 100 "admin"
    "SN-001" 10 (some 50) none none none none none none "r2"
    (exItem .AVAILABLE) (by decide) (by decide) (by decide) (by decide)


/-- C10: the admin delete route never removes the rental row — it flips the
status to CANCELLED (table length preserved), writes one cancel status log
and one activity log, and resets the linked item to AVAILABLE exactly when
the item is currently RENTED, leaving the items table untouched otherwise. -/
theorem c10_delete_cancels (st : Store) (adminId id : String)
    (cur : Rental) (item : Item)
    (hfind : findRental st id = some cur)
    (hitem : findItem st cur.itemSerial = some item) :
    (deleteRentalById st adminId id false).resp = none ∧
    (deleteRentalById st adminId id false).store.rentals.length =
      st.rentals.length ∧
    ((findRental (deleteRentalById st adminId id false).store id).map
      Rental.status = some .CANCELLED) ∧
    (deleteRentalById st adminId id false).store.rentalStatusLogs =
      st.rentalStatusLogs ++
        [{ rentalId := id, status := .CANCELLED, userId := adminId,
           notes := "Rental cancelled by admin" }] ∧
    (deleteRentalById st adminId id false).store.activityLogs =
      st.activityLogs ++
        [{ type := .RENTAL_UPDATED,
           action := "Cancelled rental for " ++ item.name,
           userId := adminId, itemSerial := some cur.itemSerial,
           rentalId := some id, affectedUserId := some cur.userId,
           customerId := none }] ∧
    (item.status = ItemStatus.RENTED →
      (findItem (deleteRentalById st adminId id false).store
        cur.itemSerial).map Item.status = some .AVAILABLE) ∧
    (item.status ≠ ItemStatus.RENTED →
      (deleteRentalById st adminId id false).store.items = st.items) := by
  unfold deleteRentalById
  rw [hfind]
  dsimp only
  rw [hitem]
  dsimp only
  rw [if_neg (by decide : ¬ (false = true))]
  refine ⟨rfl, ?_, ?_, rfl, rfl, ?_, ?_⟩
  · show (updateRentalList st.rentals id
      (fun r => { r with status := RequestStatus.CANCELLED })).length =
      st.rentals.length
    unfold updateRentalList
    exact List.length_map st.rentals _
  · show ((updateRentalList st.rentals id
        (fun r => { r with status := RequestStatus.CANCELLED })).find?
        (fun r => r.id == id)).map Rental.status = some RequestStatus.CANCELLED
    unfold updateRentalList
    rw [find?_pointUpdate st.rentals (fun r => r.id == id)
      (fun r => { r with status := RequestStatus.CANCELLED }) (fun r => rfl)]
    rw [show st.rentals.find? (fun r => r.id == id) = some cur from hfind]
    rfl
  · intro hR
    rw [if_pos hR]
    show ((updateItemList st.items cur.itemSerial
        (fun it => { it with status := ItemStatus.AVAILABLE })).find?
        (fun it => it.serialNumber == cur.itemSerial)).map Item.status =
      some ItemStatus.AVAILABLE
    unfold updateItemList
    rw [find?_pointUpdate st.items (fun it => it.serialNumber == cur.itemSerial)
      (fun it => { it with status := ItemStatus.AVAILABLE }) (fun it => rfl)]
    rw [show st.items.find? (fun it => it.serialNumber == cur.itemSerial) =
      some item from hitem]
    rfl
  · intro hR
    rw [if_neg hR]

/-- C10, witness at a concrete APPROVED rental on a RENTED item. -/
theorem c10_witness :
    (deleteRentalById (exStore .RENTED .APPROVED none) "admin" "r1"
        false).resp = none ∧
    (deleteRentalById (exStore .RENTED .APPROVED none) "admin" "r1"
        false).store.rentals.length =
      (exStore .RENTED .APPROVED none).rentals.length ∧
    ((findRental (deleteRentalById (exStore .RENTED .APPROVED none) "admin"
        "r1" false).store "r1").map Rental.status = some .CANCELLED) ∧
    (deleteRentalById (exStore .RENTED .APPROVED none) "admin" "r1"
        false).store.rentalStatusLogs =
      (exStore .RENTED .APPROVED none).rentalStatusLogs ++
        [{ rentalId := "r1", status := .CANCELLED, userId := "admin",
           notes := "Rental cancelled by admin" }] ∧
    (deleteRentalById (exStore .RENTED .APPROVED none) "admin" "r1"
        false).store.activityLogs =
      (exStore .RENTED .APPROVED none).activityLogs ++
        [{ type := .RENTAL_UPDATED,
           action := "Cancelled rental for " ++ (exItem .RENTED).name,
           userId := "admin",
           itemSerial := some (exRental .APPROVED none).itemSerial,
           rentalId := some "r1",
           affectedUserId := some (exRental .APPROVED none).userId,
           customerId := none }] ∧
    ((exItem .RENTED).status = ItemStatus.RENTED →
      (findItem (deleteRentalById (exStore .RENTED .APPROVED none) "admin"
        "r1" false).store (exRental .APPROVED none).itemSerial).map
        Item.status = some .AVAILABLE) ∧
    ((exItem .RENTED).status ≠ ItemStatus.RENTED →
      (deleteRentalById (exStore .RENTED .APPROVED none) "admin" "r1"
        false).store.items = (exStore .RENTED .APPROVED none).items) :=
  c10_delete_cancels (exStore .RENTED .APPROVED none) "admin" "r1"
    (exRental .APPROVED none) (exItem .RENTED) (by decide) (by decide)


/-- C1, witness for the amended theorem at a concrete terminal rental,
exercising both PATCH routes. -/
theorem c1_witness :
    ((patchRentals (exStore .AVAILABLE .CANCELLED none) 100 "admin" "r1"
        .COMPLETED none none false false).resp = none ∧
     (findRental (patchRentals (exStore .AVAILABLE .CANCELLED none) 100
        "admin" "r1" .COMPLETED none none false false).store "r1").map
        Rental.status = some .COMPLETED ∧
     (patchRentals (exStore .AVAILABLE .CANCELLED none) 100 "admin" "r1"
        .COMPLETED none none false false).store.items =
       (match (if RequestStatus.COMPLETED = RequestStatus.APPROVED then
           some ItemStatus.RENTED
         else if RequestStatus.COMPLETED = RequestStatus.COMPLETED then
           some ItemStatus.AVAILABLE
         else if RequestStatus.COMPLETED = RequestStatus.REJECTED then
           some ItemStatus.AVAILABLE
         else none : Option ItemStatus) with
        | some s =>
          updateItemList (exStore .AVAILABLE .CANCELLED none).items
            (exRental .CANCELLED none).itemSerial
            (fun it => { it with status := s })
        | none => (exStore .AVAILABLE .CANCELLED none).items)) ∧
    ((patchRentalById (exStore .AVAILABLE .CANCELLED none) 100 "admin" "Adm"
        "r1" (some .COMPLETED) none none none none none false false).resp =
      none ∧
     (findRental (patchRentalById (exStore .AVAILABLE .CANCELLED none) 100
        "admin" "Adm" "r1" (some .COMPLETED) none none none none none false
        false).store "r1").map Rental.status = some .COMPLETED ∧
     (patchRentalById (exStore .AVAILABLE .CANCELLED none) 100 "admin" "Adm"
        "r1" (some .COMPLETED) none none none none none false
        false).store.items =
       (match (if RequestStatus.COMPLETED = RequestStatus.APPROVED then
           some ItemStatus.RENTED
         else if RequestStatus.COMPLETED = RequestStatus.COMPLETED then
           some ItemStatus.AVAILABLE
         else if RequestStatus.COMPLETED = RequestStatus.REJECTED ∨
             RequestStatus.COMPLETED = RequestStatus.CANCELLED then
           some ItemStatus.AVAILABLE
         else none : Option ItemStatus) with
        | some s =>
          updateItemList (exStore .AVAILABLE .CANCELLED none).items
            (exRental .CANCELLED none).itemSerial
            (fun it => { it with status := s })
        | none => (exStore .AVAILABLE .CANCELLED none).items)) :=
  c1_terminal_transition_applied (exStore .AVAILABLE .CANCELLED none) 100
    "admin" "Adm" "r1" .COMPLETED none none (exRental .CANCELLED none) false
    (by decide) (by decide) (by decide)

end Paramata
